import Mathlib

/-!
Verification of the AI-Newsroom fact-checking pipeline and its caller UI.

The caller side (toast / modal classification of `overall_score`, the
`factCheckContent` handler and the axios request configurations) is embedded
from `frontend/src/components/ArticleEditor.js` and the shared axios `api`
instance.  The fact-checking pipeline itself (segmenter, claim extractor,
entity recognizer, source verifier, scorer, report assembler) is not present
in the repository sources; its definitions below are modelled from the spec.
-/

namespace AINewsroom

/-! ### Data model (§3 of the spec, serialized contract §6) -/

structure Claim where
  text : String
  confidence : ℚ
  issues : List String
  suggestion : Option String
  deriving DecidableEq

instance : Inhabited Claim := ⟨⟨"", 0, [], none⟩⟩

structure Entity where
  text : String
  canonical_form : String
  label : String
  description : Option String
  deriving DecidableEq

instance : Inhabited Entity := ⟨⟨"", "", "", none⟩⟩

structure Source where
  title : String
  url : String
  snippet : String
  source_name : String
  relevance : ℚ
  deriving DecidableEq

structure CredibilityReport where
  overall_score : ℤ
  flagged_claims : List Claim
  entities : List Entity
  credible_sources : List Source
  deriving DecidableEq

/-! ### Character-level text utilities

The source is JavaScript; its string operations are embedded as structural
functions on the character list of a Lean `String`. -/

def wsChar (c : Char) : Bool := c.isWhitespace

/-- Strip leading and trailing whitespace from a character list (the
semantics of JavaScript's `String.prototype.trim`). -/
def trimChars (l : List Char) : List Char :=
  ((l.dropWhile wsChar).reverse.dropWhile wsChar).reverse

/-- Blank input predicate: empty or whitespace-only text (the JS guard
`!content.trim()`). -/
def isBlank (s : String) : Bool := (trimChars s.data).isEmpty

/-! ### Caller UI: score classification in `ArticleEditor.js`

`factCheckContent` (lines 282–288) picks a toast by thresholding
`response.data.overall_score`, and the results modal (lines 690–705) picks a
text colour and a progress-bar colour with the same thresholds. -/

inductive ToastKind where
  | success
  | warning
  | error
  deriving DecidableEq

structure Toast where
  kind : ToastKind
  msg : String
  deriving DecidableEq

/-- The toast branch of `factCheckContent`:
`score >= 80` → success, `score >= 60` → warning, otherwise error. -/
def scoreToastKind (score : ℤ) : ToastKind :=
  if 80 ≤ score then .success else if 60 ≤ score then .warning else .error

/-- The toast message of `factCheckContent` for a given score. -/
def scoreToastMsg (score : ℤ) : String :=
  if 80 ≤ score then "Great! Credibility score: " ++ toString score ++ "%"
  else if 60 ≤ score then "Good credibility score: " ++ toString score ++ "%"
  else "Low credibility score: " ++ toString score ++ "%"

inductive ScoreColor where
  | green
  | yellow
  | red
  deriving DecidableEq

/-- The modal's score text colour:
`>= 80` → text-green-600, `>= 60` → text-yellow-600, else text-red-600. -/
def modalScoreTextColor (score : ℤ) : ScoreColor :=
  if 80 ≤ score then .green else if 60 ≤ score then .yellow else .red

/-- The modal's progress-bar colour:
`>= 80` → bg-green-600, `>= 60` → bg-yellow-600, else bg-red-600. -/
def modalScoreBarColor (score : ℤ) : ScoreColor :=
  if 80 ≤ score then .green else if 60 ≤ score then .yellow else .red

/-- The three-way classification the spec's boundary section describes. -/
inductive ScoreClass where
  | good
  | caution
  | poor
  deriving DecidableEq

def classOfToastKind : ToastKind → ScoreClass
  | .success => .good
  | .warning => .caution
  | .error => .poor

def classOfColor : ScoreColor → ScoreClass
  | .green => .good
  | .yellow => .caution
  | .red => .poor

/-! ### Caller UI: the `factCheckContent` handler as a state transition

State components of `ArticleEditor` touched by `factCheckContent`:
`factCheckResults`, `showFactCheckModal`, `factCheckLoading`, plus the stream
of toasts it emits.  The handler either refuses blank content with a
client-side error toast (no request), or issues the request; on a successful
response it stores the results, opens the modal and emits the score toast, on
a failed request it only emits an error toast; the loading flag ends `false`
on both paths (`finally`). -/

structure EditorState where
  factCheckResults : Option CredibilityReport
  showFactCheckModal : Bool
  factCheckLoading : Bool
  toasts : List Toast
  deriving DecidableEq

inductive FetchResult where
  | ok (data : CredibilityReport)
  | fail
  deriving DecidableEq

/-- `factCheckContent` from `ArticleEditor.js` (lines 264–296).  The returned
`Bool` records whether the HTTP request was issued at all. -/
def factCheckContent (s : EditorState) (content : String) (fetch : FetchResult) :
    EditorState × Bool :=
  if isBlank content then
    ({ s with toasts := s.toasts ++ [⟨.error, "Please add some content to fact-check"⟩] }, false)
  else
    let s1 : EditorState := { s with factCheckLoading := true }
    match fetch with
    | .ok data =>
        ({ s1 with
            factCheckResults := some data
            showFactCheckModal := true
            toasts := s1.toasts ++
              [⟨scoreToastKind data.overall_score, scoreToastMsg data.overall_score⟩]
            factCheckLoading := false }, true)
    | .fail =>
        ({ s1 with
            toasts := s1.toasts ++ [⟨.error, "Failed to fact-check content"⟩]
            factCheckLoading := false }, true)

/-! ### Caller UI: axios request configurations

The shared `api` instance (`services/api.js`) is created with
`timeout: 10000`; `factCheckContent` instead calls the bare `axios.post`,
whose default config has `timeout: 0`, which in axios means "no timeout". -/

structure AxiosConfig where
  timeout : ℕ
  deriving DecidableEq

/-- axios default request configuration: `timeout` is `0`, meaning none. -/
def axiosDefaultConfig : AxiosConfig := ⟨0⟩

/-- The shared `api` instance from `services/api.js`:
`axios.create({ ..., timeout: 10000, ... })`. -/
def apiInstanceConfig : AxiosConfig := ⟨10000⟩

/-- The configuration carried by the fact-check request: `factCheckContent`
uses the bare `axios.post(...)`, i.e. the axios defaults. -/
def factCheckRequestConfig : AxiosConfig := axiosDefaultConfig

/-- The instant (ms) at which a request settles for the caller, given the
delay after which the server would answer: with a nonzero timeout the client
aborts at `timeout` if the server is slower; with `timeout = 0` the client
waits for the server, however long that takes. -/
def requestSettlesBy (c : AxiosConfig) (serverDelay : ℕ) : ℕ :=
  if c.timeout = 0 then serverDelay else min serverDelay c.timeout

/-- A request path has client-bounded latency when some bound covers every
possible server delay. -/
def clientBoundedLatency (c : AxiosConfig) : Prop :=
  ∃ bound : ℕ, ∀ serverDelay : ℕ, requestSettlesBy c serverDelay ≤ bound

/-! ### Pipeline, modelled from the spec

The fact-checking service behind `POST /api/fact-check/fact_check` is absent
from the repository sources; the definitions below are modelled from the
spec's component contracts (§4) and concurrency model (§5). -/

/-- Split a character list at the characters satisfying `p` (separators are
dropped, empty chunks are kept). -/
def splitChars (p : Char → Bool) : List Char → List (List Char)
  | [] => [[]]
  | c :: cs =>
    if p c then [] :: splitChars p cs
    else
      match splitChars p cs with
      | [] => [[c]]
      | w :: ws => (c :: w) :: ws

def sentenceEnd (c : Char) : Bool := c == '.' || c == '!' || c == '?'

/-- Modelled from the spec: the Sentence Segmenter (§4.1) splits raw text
into ordered sentences; empty or whitespace-only input yields an empty
sequence. -/
def segment (text : String) : List String :=
  if isBlank text then []
  else
    (((splitChars sentenceEnd text.data).map trimChars).filter (fun l => !l.isEmpty)).map
      (fun l => (⟨l⟩ : String))

def lowerChars (l : List Char) : List Char := l.map Char.toLower

/-- Whether `pat` occurs as a contiguous subsequence of `hay`. -/
def containsSeq : List Char → List Char → Bool
  | [], pat => pat.isEmpty
  | c :: cs, pat => pat.isPrefixOf (c :: cs) || containsSeq cs pat

def containsDigit (s : String) : Bool := s.data.any Char.isDigit

/-- Assertive verb patterns used by the claim heuristics (§4.2). -/
def assertiveVerbs : List String :=
  ["announced", "reported", "confirmed", "caused", "said", "stated"]

/-- Opinion / hedging markers that disqualify a sentence as a claim (§4.2). -/
def hedgeMarkers : List String := ["might", "could", "i think", "maybe", "perhaps"]

def hasAssertiveVerb (s : String) : Bool :=
  assertiveVerbs.any (fun v => containsSeq (lowerChars s.data) v.data)

def isOpinion (s : String) : Bool :=
  hedgeMarkers.any (fun w => containsSeq (lowerChars s.data) w.data)

/-- Modelled from the spec: claim candidacy (§4.2) — a numeric quantity or an
assertive verb pattern qualifies, opinion-marked sentences are excluded. -/
def isClaimCandidate (s : String) : Bool :=
  (containsDigit s || hasAssertiveVerb s) && !(isOpinion s)

/-- Modelled from the spec: heuristic claim confidence in `[0,1]` (§4.2). -/
def claimConfidence (s : String) : ℚ :=
  min 1 ((if containsDigit s then (1 : ℚ)/2 else 0) +
    (if hasAssertiveVerb s then (2 : ℚ)/5 else 0) + 1/10)

/-- Modelled from the spec: the Claim Extractor (§4.2) filters sentences into
Claim records with confidence initialized and issues/suggestion empty. -/
def extractClaims (sentences : List String) : List Claim :=
  (sentences.filter isClaimCandidate).map
    (fun s => { text := s, confidence := claimConfidence s, issues := [], suggestion := none })

/-- Canonical form: case/whitespace normalized (§4.3). -/
def canonicalize (s : String) : String := ⟨lowerChars (trimChars s.data)⟩

/-- Modelled from the spec: the regex-fallback recognizer's per-word
heuristic (§4.3) — capitalized word for person-like entities, numeric pattern
for numbers. -/
def wordEntity (w : List Char) : Option Entity :=
  match w with
  | [] => none
  | c :: _ =>
    if c.isUpper then
      some { text := ⟨w⟩, canonical_form := ⟨lowerChars (trimChars w)⟩,
             label := "PERSON", description := none }
    else if w.any Char.isDigit then
      some { text := ⟨w⟩, canonical_form := ⟨lowerChars (trimChars w)⟩,
             label := "NUMBER", description := none }
    else none

/-- Modelled from the spec: the Entity Recognizer (§4.3) detects named
entities per sentence. -/
def recognizeEntities (sentences : List String) : List Entity :=
  (sentences.map (fun sent => (splitChars (fun c => c == ' ') sent.data).filterMap wordEntity)).flatten

/-- The deduplication key for entities: `(canonical_form, label)` (§3). -/
def entityKey (e : Entity) : String × String := (e.canonical_form, e.label)

/-- Key-based deduplication keeping the first occurrence; `seen` is the set
of keys already emitted. -/
def dedupeByKeyAux {α κ : Type} [DecidableEq κ] (key : α → κ) : List α → List κ → List α
  | [], _ => []
  | x :: xs, seen =>
    if key x ∈ seen then dedupeByKeyAux key xs seen
    else x :: dedupeByKeyAux key xs (key x :: seen)

/-- Modelled from the spec: deduplication by key keeping the first
occurrence (§4.3 for entities, §4.6 for sources by URL). -/
def dedupeByKey {α κ : Type} [DecidableEq κ] (key : α → κ) (l : List α) : List α :=
  dedupeByKeyAux key l []

/-- Sentences of the input text. -/
def pipelineSentences (text : String) : List String := segment text

/-- Claims extracted from the input text. -/
def pipelineClaims (text : String) : List Claim := extractClaims (pipelineSentences text)

/-- Deduplicated entities recognized in the input text. -/
def pipelineEntities (text : String) : List Entity :=
  dedupeByKey entityKey (recognizeEntities (pipelineSentences text))

/-! ### Source Verifier, modelled from the spec (§4.4, §5)

Lookups fan out per entity/claim; the external knowledge source is a pure
function from canonical query to outcome (fixed external-source state).
Result slots are pre-allocated by input order and filled in-place in whatever
order the concurrent lookups complete; slots left unfilled when the deadline
expires are resolved to "unverified". -/

inductive LookupOutcome where
  | resolved (descr : String) (src : Source)
  | unverified
  | contradicted
  deriving DecidableEq

/-- A slot never filled before the deadline counts as unverified (§5). -/
def resolveSlot : Option LookupOutcome → LookupOutcome
  | some o => o
  | none => .unverified

/-- Modelled from the spec: pre-allocated result slots filled in-place in
completion order (§5).  `order` is the order in which lookups complete;
completion of lookup `i` writes `result i` into slot `i`. -/
def fillSlots {R : Type} (init : List (Option R)) (result : ℕ → R) (order : List ℕ) :
    List (Option R) :=
  order.foldl (fun acc i => acc.set i (some (result i))) init

/-- Run `n` pre-allocated lookups whose completions arrive in `order`. -/
def runLookups {R : Type} (result : ℕ → R) (n : ℕ) (order : List ℕ) : List (Option R) :=
  fillSlots (List.replicate n none) result order

def entityQuery (e : Entity) : String := e.canonical_form

def claimQuery (c : Claim) : String := canonicalize c.text

/-- Modelled from the spec: a resolved entity gains its description and
contributes the corroborating source; otherwise it is unmodified (§4.4). -/
def applyEntityOutcome (e : Entity) : LookupOutcome → Entity × List Source
  | .resolved d src => ({ e with description := some d }, [src])
  | .unverified => (e, [])
  | .contradicted => (e, [])

/-- Modelled from the spec: a corroborated claim is unmodified beyond its
source being collected; otherwise it gains issues and a suggestion (§4.4). -/
def applyClaimOutcome (c : Claim) : LookupOutcome → Claim × List Source
  | .resolved _ src => (c, [src])
  | .unverified =>
      ({ c with issues := ["unverifiable: no corroborating source found"],
                suggestion := some "consider citing a primary source for this claim" }, [])
  | .contradicted =>
      ({ c with issues := ["contradicts known data"],
                suggestion := some "revise this claim to match corroborated data" }, [])

/-- Outcomes of the entity lookups, slot `i` for entity `i`. -/
def entityOutcomes (lookup : String → LookupOutcome) (text : String) (orderE : List ℕ) :
    List LookupOutcome :=
  (runLookups (fun i => lookup (entityQuery ((pipelineEntities text).getD i default)))
    (pipelineEntities text).length orderE).map resolveSlot

/-- Outcomes of the claim lookups, slot `i` for claim `i`. -/
def claimOutcomes (lookup : String → LookupOutcome) (text : String) (orderC : List ℕ) :
    List LookupOutcome :=
  (runLookups (fun i => lookup (claimQuery ((pipelineClaims text).getD i default)))
    (pipelineClaims text).length orderC).map resolveSlot

/-- Entities after verification. -/
def verifiedEntities (lookup : String → LookupOutcome) (text : String) (orderE : List ℕ) :
    List Entity :=
  (List.zipWith applyEntityOutcome (pipelineEntities text) (entityOutcomes lookup text orderE)).map
    Prod.fst

/-- Claims after verification. -/
def verifiedClaims (lookup : String → LookupOutcome) (text : String) (orderC : List ℕ) :
    List Claim :=
  (List.zipWith applyClaimOutcome (pipelineClaims text) (claimOutcomes lookup text orderC)).map
    Prod.fst

/-- The running set of credible sources collected during verification. -/
def collectedSources (lookup : String → LookupOutcome) (text : String)
    (orderE orderC : List ℕ) : List Source :=
  ((List.zipWith applyClaimOutcome (pipelineClaims text) (claimOutcomes lookup text orderC)).map
      Prod.snd).flatten ++
  ((List.zipWith applyEntityOutcome (pipelineEntities text) (entityOutcomes lookup text orderE)).map
      Prod.snd).flatten

/-! ### Credibility Scorer, modelled from the spec (§4.5) -/

/-- Modelled from the spec: per-claim penalty — 25·confidence when
contradicted, 15·confidence when otherwise flagged, 0 when clean (§4.5). -/
def claimPenalty (c : Claim) : ℚ :=
  if c.issues.contains "contradicts known data" then 25 * c.confidence
  else if c.issues.isEmpty then 0
  else 15 * c.confidence

/-- Modelled from the spec: 5 per unresolved entity, capped at 30% of the
total possible deduction of 100 (§4.5). -/
def entityPenalty (entities : List Entity) : ℚ :=
  min ((5 : ℚ) * (entities.filter (fun e => e.description.isNone)).length) 30

/-- Rounding to the nearest integer, executable on `ℚ` (equal to Mathlib's
`round`, see `roundQ_eq_round`). -/
def roundQ (q : ℚ) : ℤ := Rat.floor (q + 1/2)

/-- Modelled from the spec: start at 100, subtract penalties, floor at 0,
ceiling at 100, round to the nearest integer (§4.5). -/
def overallScore (claims : List Claim) (entities : List Entity) : ℤ :=
  roundQ (max (0 : ℚ) (min 100 (100 - (claims.map claimPenalty).sum - entityPenalty entities)))

/-! ### Report Assembler, modelled from the spec (§4.6) -/

/-- Severity order on claims: more issues first, then higher confidence. -/
def severityGE (a b : Claim) : Prop :=
  b.issues.length < a.issues.length ∨
    (a.issues.length = b.issues.length ∧ b.confidence ≤ a.confidence)

instance : DecidableRel severityGE := fun a b => by
  unfold severityGE; infer_instance

instance : IsTotal Claim severityGE where
  total a b := by
    unfold severityGE
    rcases Nat.lt_trichotomy a.issues.length b.issues.length with h | h | h
    · exact Or.inr (Or.inl h)
    · rcases le_total b.confidence a.confidence with hc | hc
      · exact Or.inl (Or.inr ⟨h, hc⟩)
      · exact Or.inr (Or.inr ⟨h.symm, hc⟩)
    · exact Or.inl (Or.inl h)

instance : IsTrans Claim severityGE where
  trans a b c hab hbc := by
    unfold severityGE at *
    rcases hab with h1 | ⟨h1, h1c⟩ <;> rcases hbc with h2 | ⟨h2, h2c⟩
    · exact Or.inl (h2.trans h1)
    · exact Or.inl (h2 ▸ h1)
    · exact Or.inl (h1 ▸ h2)
    · exact Or.inr ⟨h1.trans h2, h2c.trans h1c⟩

/-- Relevance order on sources: higher relevance first. -/
def relevanceGE (a b : Source) : Prop := b.relevance ≤ a.relevance

instance : DecidableRel relevanceGE := fun a b => by
  unfold relevanceGE; infer_instance

instance : IsTotal Source relevanceGE where
  total a b := le_total b.relevance a.relevance

instance : IsTrans Source relevanceGE where
  trans _ _ _ hab hbc := le_trans hbc hab

/-- The fixed truncation limit on credible sources (§4.6). -/
def maxSources : ℕ := 10

/-- Modelled from the spec: the Report Assembler (§4.6) — flagged claims are
the claims with a non-empty issues list sorted by descending severity;
credible sources are deduplicated by URL, sorted by descending relevance and
truncated to `maxSources`. -/
def assembleReport (score : ℤ) (claims : List Claim) (entities : List Entity)
    (sources : List Source) : CredibilityReport :=
  { overall_score := score
    flagged_claims := List.insertionSort severityGE (claims.filter (fun c => !c.issues.isEmpty))
    entities := entities
    credible_sources :=
      (List.insertionSort relevanceGE (dedupeByKey Source.url sources)).take maxSources }

/-- Modelled from the spec: the whole pipeline (§2): text → segmenter →
extractor/recognizer → verifier (fan-out in completion orders `orderE`,
`orderC`) → scorer → assembler. -/
def runPipeline (lookup : String → LookupOutcome) (text : String)
    (orderE orderC : List ℕ) : CredibilityReport :=
  assembleReport
    (overallScore (verifiedClaims lookup text orderC) (verifiedEntities lookup text orderE))
    (verifiedClaims lookup text orderC)
    (verifiedEntities lookup text orderE)
    (collectedSources lookup text orderE orderC)

/-! ### Serialization (§6 output contract) -/

structure SerializedClaim where
  text : String
  issues : List String
  confidence : ℤ
  suggestion : String
  deriving DecidableEq

/-- Percentage rendering of a `[0,1]` quantity as a `0-100` integer. -/
def pct (q : ℚ) : ℤ := roundQ (100 * q)

/-- Modelled from the spec: serialization of a flagged claim (§6) — the
confidence field is the percentage rendering of the internal confidence. -/
def serializeClaim (c : Claim) : SerializedClaim :=
  { text := c.text
    issues := c.issues
    confidence := pct c.confidence
    suggestion := c.suggestion.getD "" }

/-! ### Concrete evaluation fixtures -/

/-- A knowledge source that resolves nothing. -/
def lookupU : String → LookupOutcome := fun _ => LookupOutcome.unverified

def sampleState : EditorState := ⟨none, false, false, []⟩

def sampleReport : CredibilityReport := ⟨42, [], [], []⟩

/-- The flagged claim the pipeline produces for the text "Al said 3."
against `lookupU`. -/
def sampleFlagged : Claim :=
  ⟨"Al said 3", 1, ["unverifiable: no corroborating source found"],
    some "consider citing a primary source for this claim"⟩

/-- One of the entities recognized in the text "Al said 3.". -/
def sampleEntity : Entity := ⟨"Al", "al", "PERSON", none⟩

/-! ### Helper lemmas -/

theorem ratFloor_eq_intFloor (x : ℚ) : x.floor = ⌊x⌋ := by
  rw [Rat.floor_def', Rat.floor_def]

theorem roundQ_eq_round (q : ℚ) : roundQ q = round q := by
  rw [roundQ, round_eq, ratFloor_eq_intFloor]

theorem roundQ_mono {x y : ℚ} (h : x ≤ y) : roundQ x ≤ roundQ y := by
  rw [roundQ_eq_round, roundQ_eq_round, round_eq, round_eq]
  exact Int.floor_le_floor (by linarith)

theorem roundQ_nonneg {q : ℚ} (h : 0 ≤ q) : 0 ≤ roundQ q := by
  have h' := roundQ_mono h
  rwa [show roundQ (0 : ℚ) = 0 by rw [roundQ_eq_round]; simp] at h'

theorem roundQ_le_100 {q : ℚ} (h : q ≤ 100) : roundQ q ≤ 100 := by
  have h' := roundQ_mono h
  rwa [show roundQ (100 : ℚ) = 100 by rw [roundQ_eq_round]; simp] at h'

theorem overallScore_bounds (cs : List Claim) (es : List Entity) :
    0 ≤ overallScore cs es ∧ overallScore cs es ≤ 100 := by
  unfold overallScore
  exact ⟨roundQ_nonneg (le_max_left _ _),
    roundQ_le_100 (max_le (by norm_num) (min_le_left _ _))⟩

theorem pct_bounds {q : ℚ} (h0 : 0 ≤ q) (h1 : q ≤ 1) : 0 ≤ pct q ∧ pct q ≤ 100 := by
  unfold pct
  exact ⟨roundQ_nonneg (by positivity), roundQ_le_100 (by linarith)⟩

theorem claimConfidence_bounds (s : String) :
    0 ≤ claimConfidence s ∧ claimConfidence s ≤ 1 := by
  unfold claimConfidence
  refine ⟨le_min (by norm_num) ?_, min_le_left _ _⟩
  split_ifs <;> norm_num

theorem conf_bounds_extract {ss : List String} {c : Claim} (h : c ∈ extractClaims ss) :
    0 ≤ c.confidence ∧ c.confidence ≤ 1 := by
  unfold extractClaims at h
  obtain ⟨s, _, rfl⟩ := List.mem_map.mp h
  exact claimConfidence_bounds s

theorem dedupeByKeyAux_spec {α κ : Type} [DecidableEq κ] (key : α → κ) :
    ∀ (l : List α) (seen : List κ),
      (dedupeByKeyAux key l seen).Pairwise (fun a b => key a ≠ key b) ∧
      ∀ a ∈ dedupeByKeyAux key l seen, key a ∉ seen
  | [], seen => by simp [dedupeByKeyAux]
  | x :: xs, seen => by
    by_cases hx : key x ∈ seen
    · rw [dedupeByKeyAux, if_pos hx]
      exact dedupeByKeyAux_spec key xs seen
    · rw [dedupeByKeyAux, if_neg hx]
      obtain ⟨hp, hs⟩ := dedupeByKeyAux_spec key xs (key x :: seen)
      constructor
      · refine List.Pairwise.cons ?_ hp
        intro b hb
        have hb' := hs b hb
        simp only [List.mem_cons, not_or] at hb'
        exact fun he => hb'.1 he.symm
      · intro a ha
        rcases List.mem_cons.mp ha with rfl | ha'
        · exact hx
        · have ha'' := hs a ha'
          simp only [List.mem_cons, not_or] at ha''
          exact ha''.2

theorem dedupeByKeyAux_complete {α κ : Type} [DecidableEq κ] (key : α → κ) :
    ∀ (l : List α) (seen : List κ) (a : α), a ∈ l →
      key a ∈ seen ∨ key a ∈ (dedupeByKeyAux key l seen).map key
  | [], _, a => by simp
  | x :: xs, seen, a => by
    intro ha
    by_cases hx : key x ∈ seen
    · rw [dedupeByKeyAux, if_pos hx]
      rcases List.mem_cons.mp ha with rfl | ha'
      · exact Or.inl hx
      · exact dedupeByKeyAux_complete key xs seen a ha'
    · rw [dedupeByKeyAux, if_neg hx]
      rcases List.mem_cons.mp ha with rfl | ha'
      · exact Or.inr (by simp)
      · rcases dedupeByKeyAux_complete key xs (key x :: seen) a ha' with h | h
        · rcases List.mem_cons.mp h with he | hseen
          · exact Or.inr (by simp [he])
          · exact Or.inl hseen
        · exact Or.inr (by simp [h])

theorem dedupeByKey_pairwise {α κ : Type} [DecidableEq κ] (key : α → κ) (l : List α) :
    (dedupeByKey key l).Pairwise (fun a b => key a ≠ key b) :=
  (dedupeByKeyAux_spec key l []).1

theorem dedupeByKey_complete {α κ : Type} [DecidableEq κ] (key : α → κ) {l : List α} {a : α}
    (h : a ∈ l) : key a ∈ (dedupeByKey key l).map key := by
  rcases dedupeByKeyAux_complete key l [] a h with h' | h'
  · simp at h'
  · exact h'

theorem fillSlots_cons {R : Type} (init : List (Option R)) (r : ℕ → R) (i : ℕ)
    (rest : List ℕ) :
    fillSlots init r (i :: rest) = fillSlots (init.set i (some (r i))) r rest := rfl

theorem length_fillSlots {R : Type} (r : ℕ → R) :
    ∀ (order : List ℕ) (init : List (Option R)),
      (fillSlots init r order).length = init.length
  | [], _ => rfl
  | i :: rest, init => by
    rw [fillSlots_cons, length_fillSlots r rest, List.length_set]

theorem getElem?_fillSlots {R : Type} (r : ℕ → R) :
    ∀ (order : List ℕ) (init : List (Option R)) (j : ℕ),
      (fillSlots init r order)[j]? =
        if j ∈ order ∧ j < init.length then some (some (r j)) else init[j]?
  | [], init, j => by simp [fillSlots]
  | i :: rest, init, j => by
    rw [fillSlots_cons, getElem?_fillSlots r rest, List.length_set, List.getElem?_set]
    by_cases hlen : j < init.length
    · by_cases hji : i = j
      · subst hji
        by_cases hjr : i ∈ rest <;> simp [hjr, hlen, List.mem_cons]
      · by_cases hjr : j ∈ rest
        · simp [hjr, hlen, hji, List.mem_cons]
        · simp [hjr, hlen, hji, List.mem_cons, Ne.symm hji]
    · have hnone : init[j]? = none := List.getElem?_eq_none (Nat.le_of_not_lt hlen)
      by_cases hji : i = j
      · subst hji
        simp [hlen, hnone]
      · simp [hlen, hnone, hji]

theorem runLookups_of_perm {R : Type} (r : ℕ → R) (n : ℕ) {order : List ℕ}
    (h : order.Perm (List.range n)) :
    runLookups r n order = (List.range n).map (fun i => some (r i)) := by
  apply List.ext_getElem?
  intro j
  rw [runLookups, getElem?_fillSlots, List.length_replicate]
  by_cases hj : j < n
  · have hmem : j ∈ order := h.mem_iff.mpr (List.mem_range.mpr hj)
    simp [hj, hmem, List.getElem?_range hj]
  · have h1 : (List.replicate n (none : Option R))[j]? = none := by
      rw [List.getElem?_replicate]
      simp [hj]
    have h2 : ((List.range n).map (fun i => some (r i)))[j]? = none := by
      apply List.getElem?_eq_none
      simpa using Nat.le_of_not_lt hj
    simp [hj, h1, h2]

theorem conf_applyClaimOutcome (c : Claim) (o : LookupOutcome) :
    ((applyClaimOutcome c o).1).confidence = c.confidence := by
  cases o <;> rfl

theorem key_applyEntityOutcome (e : Entity) (o : LookupOutcome) :
    entityKey (applyEntityOutcome e o).1 = entityKey e := by
  cases o <;> rfl

theorem conf_of_mem_zip_claims :
    ∀ {cs : List Claim} {os : List LookupOutcome} {c : Claim},
      c ∈ (List.zipWith applyClaimOutcome cs os).map Prod.fst →
      ∃ c0 ∈ cs, c.confidence = c0.confidence := by
  intro cs
  induction cs with
  | nil => simp
  | cons hd tl ih =>
    intro os c h
    cases os with
    | nil => simp at h
    | cons o os' =>
      rw [List.zipWith_cons_cons, List.map_cons] at h
      rcases List.mem_cons.mp h with h' | h'
      · exact ⟨hd, List.mem_cons_self hd tl, by rw [h', conf_applyClaimOutcome]⟩
      · obtain ⟨c0, hc0, he⟩ := ih h'
        exact ⟨c0, List.mem_cons_of_mem hd hc0, he⟩

theorem map_key_zip_entities :
    ∀ (es : List Entity) (os : List LookupOutcome), es.length ≤ os.length →
      (((List.zipWith applyEntityOutcome es os).map Prod.fst).map entityKey) =
        es.map entityKey
  | [], _, _ => by simp
  | hd :: tl, [], h => by simp at h
  | hd :: tl, o :: os', h => by
    rw [List.zipWith_cons_cons, List.map_cons, List.map_cons, List.map_cons,
      map_key_zip_entities tl os' (Nat.le_of_succ_le_succ h), key_applyEntityOutcome]

theorem length_entityOutcomes (lookup : String → LookupOutcome) (text : String)
    (oE : List ℕ) :
    (entityOutcomes lookup text oE).length = (pipelineEntities text).length := by
  unfold entityOutcomes runLookups
  rw [List.length_map, length_fillSlots, List.length_replicate]

theorem report_entities_keys (lookup : String → LookupOutcome) (text : String)
    (oE oC : List ℕ) :
    ((runPipeline lookup text oE oC).entities).map entityKey =
      (pipelineEntities text).map entityKey := by
  show (((List.zipWith applyEntityOutcome (pipelineEntities text)
      (entityOutcomes lookup text oE)).map Prod.fst).map entityKey) = _
  exact map_key_zip_entities _ _ (le_of_eq (length_entityOutcomes lookup text oE).symm)

theorem entityOutcomes_of_perm (lookup : String → LookupOutcome) (text : String)
    {o : List ℕ} (h : o.Perm (List.range (pipelineEntities text).length)) :
    entityOutcomes lookup text o =
      (List.range (pipelineEntities text).length).map
        (fun i => lookup (entityQuery ((pipelineEntities text).getD i default))) := by
  unfold entityOutcomes
  rw [runLookups_of_perm _ _ h, List.map_map]
  rfl

theorem claimOutcomes_of_perm (lookup : String → LookupOutcome) (text : String)
    {o : List ℕ} (h : o.Perm (List.range (pipelineClaims text).length)) :
    claimOutcomes lookup text o =
      (List.range (pipelineClaims text).length).map
        (fun i => lookup (claimQuery ((pipelineClaims text).getD i default))) := by
  unfold claimOutcomes
  rw [runLookups_of_perm _ _ h, List.map_map]
  rfl

/-! ### Claim theorems -/

/-- C1: the caller UI classifies every overall_score with exactly the spec's
thresholds — a score `>= 80` is good (success toast, green styling), a score
in `60..79` is caution (warning toast, yellow styling), a score `< 60` is
poor (error toast, red styling); for every integer score in `[0,100]` exactly
one of the three classifications applies, and the toast branch and the modal
colour branches agree on the classification. -/
theorem claim1_score_classification (score : ℤ) (h0 : 0 ≤ score) (h1 : score ≤ 100) :
    (classOfToastKind (scoreToastKind score) = ScoreClass.good ↔ 80 ≤ score) ∧
    (classOfToastKind (scoreToastKind score) = ScoreClass.caution ↔
      60 ≤ score ∧ score < 80) ∧
    (classOfToastKind (scoreToastKind score) = ScoreClass.poor ↔ score < 60) ∧
    classOfColor (modalScoreTextColor score) = classOfToastKind (scoreToastKind score) ∧
    modalScoreBarColor score = modalScoreTextColor score := by
  unfold scoreToastKind modalScoreTextColor modalScoreBarColor
  split_ifs with h80 h60 <;> simp [classOfToastKind, classOfColor] <;> omega

/-- Witness for C1 at the concrete score 70. -/
theorem claim1_witness :
    (classOfToastKind (scoreToastKind 70) = ScoreClass.good ↔ 80 ≤ (70 : ℤ)) ∧
    (classOfToastKind (scoreToastKind 70) = ScoreClass.caution ↔
      60 ≤ (70 : ℤ) ∧ (70 : ℤ) < 80) ∧
    (classOfToastKind (scoreToastKind 70) = ScoreClass.poor ↔ (70 : ℤ) < 60) ∧
    classOfColor (modalScoreTextColor 70) = classOfToastKind (scoreToastKind 70) ∧
    modalScoreBarColor 70 = modalScoreTextColor 70 :=
  claim1_score_classification 70 (by decide) (by decide)

/-- C2 counterexample: the fact-check request is issued with a bare
`axios.post` carrying the axios default `timeout: 0` (no timeout), so no
bound covers every server delay — the request path does not have
client-bounded latency. -/
theorem claim2_counterexample : ¬ clientBoundedLatency factCheckRequestConfig := by
  rintro ⟨bound, hb⟩
  have h := hb (bound + 1)
  simp [requestSettlesBy, factCheckRequestConfig, axiosDefaultConfig] at h

/-- C2 amended: the fact-check request carries no client-side timeout
(axios default `0`), hence no client deadline bounds its latency; only
requests issued through the shared `api` instance carry the 10-second
timeout, and those do settle within 10000 ms whatever the server delay. -/
theorem claim2_no_client_timeout :
    factCheckRequestConfig.timeout = 0 ∧
    apiInstanceConfig.timeout = 10000 ∧
    clientBoundedLatency apiInstanceConfig := by
  refine ⟨rfl, rfl, ⟨10000, fun d => ?_⟩⟩
  simp [requestSettlesBy, apiInstanceConfig]

/-- C3: for every input text (and any lookup behaviour and completion
orders), the overall_score of the produced CredibilityReport is an integer
with `0 <= overall_score <= 100`: the scorer starts at 100, subtracts
penalties, floors at 0, ceilings at 100, and rounds to the nearest
integer. -/
theorem claim3_score_in_range (lookup : String → LookupOutcome) (text : String)
    (oE oC : List ℕ) :
    0 ≤ (runPipeline lookup text oE oC).overall_score ∧
    (runPipeline lookup text oE oC).overall_score ≤ 100 :=
  overallScore_bounds (verifiedClaims lookup text oC) (verifiedEntities lookup text oE)

/-- C10: if the fact-check request fails, the editor's stored fact-check
state is unchanged — `factCheckResults` keeps its previous value, the results
modal is not opened, the only observable effect is an error toast — and the
loading flag is reset to false on both the success and the failure path. -/
theorem claim10_error_path (s : EditorState) (content : String)
    (h : isBlank content = false) (data : CredibilityReport) :
    (factCheckContent s content FetchResult.fail).1.factCheckResults =
      s.factCheckResults ∧
    (factCheckContent s content FetchResult.fail).1.showFactCheckModal =
      s.showFactCheckModal ∧
    (factCheckContent s content FetchResult.fail).1.factCheckLoading = false ∧
    (factCheckContent s content FetchResult.fail).1.toasts =
      s.toasts ++ [⟨ToastKind.error, "Failed to fact-check content"⟩] ∧
    (factCheckContent s content FetchResult.fail).2 = true ∧
    (factCheckContent s content (FetchResult.ok data)).1.factCheckLoading = false := by
  simp [factCheckContent, h]

/-- Witness for C10 at a concrete editor state and content. -/
theorem claim10_witness :
    (factCheckContent sampleState "x" FetchResult.fail).1.factCheckResults =
      sampleState.factCheckResults ∧
    (factCheckContent sampleState "x" FetchResult.fail).1.showFactCheckModal =
      sampleState.showFactCheckModal ∧
    (factCheckContent sampleState "x" FetchResult.fail).1.factCheckLoading = false ∧
    (factCheckContent sampleState "x" FetchResult.fail).1.toasts =
      sampleState.toasts ++ [⟨ToastKind.error, "Failed to fact-check content"⟩] ∧
    (factCheckContent sampleState "x" FetchResult.fail).2 = true ∧
    (factCheckContent sampleState "x" (FetchResult.ok sampleReport)).1.factCheckLoading =
      false :=
  claim10_error_path sampleState "x" (by decide) sampleReport

/-- C4: for every empty or whitespace-only input text, the pipeline returns
a report with `overall_score == 100`, `flagged_claims == []` and
`entities == []`; and the caller's `factCheckContent` refuses to submit such
text at all, showing a client-side error toast instead of calling the API. -/
theorem claim4_blank_input (lookup : String → LookupOutcome) (oE oC : List ℕ)
    (input : String) (h : isBlank input = true) (s : EditorState) (fr : FetchResult) :
    runPipeline lookup input oE oC = ⟨100, [], [], []⟩ ∧
    (factCheckContent s input fr).2 = false ∧
    (factCheckContent s input fr).1 =
      { s with toasts := s.toasts ++
          [⟨ToastKind.error, "Please add some content to fact-check"⟩] } := by
  have hseg : pipelineSentences input = [] := by
    simp [pipelineSentences, segment, h]
  have hc : pipelineClaims input = [] := by
    simp [pipelineClaims, hseg, extractClaims]
  have he : pipelineEntities input = [] := by
    simp [pipelineEntities, hseg, recognizeEntities, dedupeByKey, dedupeByKeyAux]
  have hvc : verifiedClaims lookup input oC = [] := by
    simp [verifiedClaims, hc]
  have hve : verifiedEntities lookup input oE = [] := by
    simp [verifiedEntities, he]
  have hsrc : collectedSources lookup input oE oC = [] := by
    simp [collectedSources, hc, he]
  have hscore : overallScore [] [] = 100 := by with_unfolding_all decide
  refine ⟨?_, ?_, ?_⟩
  · rw [runPipeline, hvc, hve, hsrc, hscore]
    rfl
  · simp [factCheckContent, h]
  · simp [factCheckContent, h]

/-- Witness for C4 at a concrete whitespace-only input. -/
theorem claim4_witness :
    runPipeline lookupU "   " [] [] = ⟨100, [], [], []⟩ ∧
    (factCheckContent sampleState "   " FetchResult.fail).2 = false ∧
    (factCheckContent sampleState "   " FetchResult.fail).1 =
      { sampleState with toasts := sampleState.toasts ++
          [⟨ToastKind.error, "Please add some content to fact-check"⟩] } :=
  claim4_blank_input lookupU [] [] "   " (by decide) sampleState FetchResult.fail

/-- C5: the pipeline is deterministic — running it twice on the same input
text against the same external knowledge source yields identical reports,
independent of the completion order of the concurrent lookups (any two
completion orders that are permutations of the pre-allocated slot indices
give the same report). -/
theorem claim5_deterministic (lookup : String → LookupOutcome) (text : String)
    (oE1 oE2 oC1 oC2 : List ℕ)
    (hE1 : oE1.Perm (List.range (pipelineEntities text).length))
    (hE2 : oE2.Perm (List.range (pipelineEntities text).length))
    (hC1 : oC1.Perm (List.range (pipelineClaims text).length))
    (hC2 : oC2.Perm (List.range (pipelineClaims text).length)) :
    runPipeline lookup text oE1 oC1 = runPipeline lookup text oE2 oC2 := by
  have he : entityOutcomes lookup text oE1 = entityOutcomes lookup text oE2 := by
    rw [entityOutcomes_of_perm lookup text hE1, entityOutcomes_of_perm lookup text hE2]
  have hc : claimOutcomes lookup text oC1 = claimOutcomes lookup text oC2 := by
    rw [claimOutcomes_of_perm lookup text hC1, claimOutcomes_of_perm lookup text hC2]
  simp [runPipeline, verifiedClaims, verifiedEntities, collectedSources, he, hc]

/-- Witness for C5: two different completion orders on a concrete text. -/
theorem claim5_witness :
    runPipeline lookupU "Al said 3." [1, 0] [0] =
      runPipeline lookupU "Al said 3." [0, 1] [0] :=
  claim5_deterministic lookupU "Al said 3." [1, 0] [0, 1] [0] [0]
    (by with_unfolding_all decide) (by with_unfolding_all decide)
    (by with_unfolding_all decide) (by with_unfolding_all decide)

/-- C6: in every produced CredibilityReport, each element of flagged_claims
has a non-empty issues list, and flagged_claims is sorted by descending
severity — primary key the number of issues, secondary key the claim
confidence, both descending. -/
theorem claim6_flagged_claims (lookup : String → LookupOutcome) (text : String)
    (oE oC : List ℕ) :
    (∀ c ∈ (runPipeline lookup text oE oC).flagged_claims, c.issues ≠ []) ∧
    List.Sorted severityGE (runPipeline lookup text oE oC).flagged_claims := by
  constructor
  · intro c hc
    have h1 : c ∈ (verifiedClaims lookup text oC).filter (fun c => !c.issues.isEmpty) :=
      (List.perm_insertionSort severityGE _).mem_iff.mp hc
    have h2 := (List.mem_filter.mp h1).2
    simpa using h2
  · exact List.sorted_insertionSort severityGE _

/-- Witness for C6: a concrete flagged claim with a non-empty issues list,
and sortedness of the concrete report's flagged claims. -/
theorem claim6_witness :
    sampleFlagged.issues ≠ [] ∧
    List.Sorted severityGE (runPipeline lookupU "Al said 3." [] []).flagged_claims :=
  ⟨(claim6_flagged_claims lookupU "Al said 3." [] []).1 sampleFlagged
      (by with_unfolding_all decide),
    (claim6_flagged_claims lookupU "Al said 3." [] []).2⟩

/-- C7: in every produced CredibilityReport, the entities list contains no
two entries with the same (canonical_form, label) pair; and every recognized
mention's (canonical_form, label) key still appears in the report, so two
mentions with identical canonical form and label from different sentences
collapse into a single Entity record. -/
theorem claim7_entity_dedup (lookup : String → LookupOutcome) (text : String)
    (oE oC : List ℕ) :
    List.Pairwise (fun a b => entityKey a ≠ entityKey b)
      (runPipeline lookup text oE oC).entities ∧
    ∀ e ∈ recognizeEntities (pipelineSentences text),
      entityKey e ∈ ((runPipeline lookup text oE oC).entities).map entityKey := by
  have hkeys := report_entities_keys lookup text oE oC
  constructor
  · have hd : ((pipelineEntities text).map entityKey).Pairwise Ne :=
      List.pairwise_map.mpr (dedupeByKey_pairwise entityKey _)
    have hd' : (((runPipeline lookup text oE oC).entities).map entityKey).Pairwise Ne := by
      rw [hkeys]
      exact hd
    exact List.pairwise_map.mp hd'
  · intro e he
    rw [hkeys]
    exact dedupeByKey_complete entityKey he

/-- Witness for C7: the concrete report's entities are key-distinct and a
concretely recognized entity's key survives into the report. -/
theorem claim7_witness :
    List.Pairwise (fun a b => entityKey a ≠ entityKey b)
      (runPipeline lookupU "Al said 3." [] []).entities ∧
    entityKey sampleEntity ∈
      ((runPipeline lookupU "Al said 3." [] []).entities).map entityKey :=
  ⟨(claim7_entity_dedup lookupU "Al said 3." [] []).1,
    (claim7_entity_dedup lookupU "Al said 3." [] []).2 sampleEntity
      (by with_unfolding_all decide)⟩

/-- C8: in every produced CredibilityReport, credible_sources contains no
two entries with the same url, is sorted by descending relevance, and its
length is at most the fixed truncation limit of 10. -/
theorem claim8_credible_sources (lookup : String → LookupOutcome) (text : String)
    (oE oC : List ℕ) :
    List.Pairwise (fun a b => a.url ≠ b.url)
      (runPipeline lookup text oE oC).credible_sources ∧
    List.Sorted relevanceGE (runPipeline lookup text oE oC).credible_sources ∧
    (runPipeline lookup text oE oC).credible_sources.length ≤ maxSources := by
  have hdd : List.Pairwise (fun a b : Source => a.url ≠ b.url)
      (dedupeByKey Source.url (collectedSources lookup text oE oC)) :=
    dedupeByKey_pairwise Source.url _
  have hperm := List.perm_insertionSort relevanceGE
    (dedupeByKey Source.url (collectedSources lookup text oE oC))
  have hsorted := List.sorted_insertionSort relevanceGE
    (dedupeByKey Source.url (collectedSources lookup text oE oC))
  refine ⟨?_, ?_, ?_⟩
  · have hps : List.Pairwise (fun a b : Source => a.url ≠ b.url)
        (List.insertionSort relevanceGE
          (dedupeByKey Source.url (collectedSources lookup text oE oC))) :=
      (hperm.pairwise_iff (fun h => Ne.symm h)).mpr hdd
    exact List.Pairwise.sublist (List.take_sublist _ _) hps
  · exact List.Pairwise.sublist (List.take_sublist _ _) hsorted
  · exact List.length_take_le _ _

/-- C9: every flagged claim of the serialized report has a confidence field
that is an integer in `[0,100]` — the percentage rendering of the internal
claim confidence, which lives in `[0,1]`. -/
theorem claim9_confidence_percentage (lookup : String → LookupOutcome) (text : String)
    (oE oC : List ℕ) (c : Claim)
    (h : c ∈ (runPipeline lookup text oE oC).flagged_claims) :
    0 ≤ (serializeClaim c).confidence ∧ (serializeClaim c).confidence ≤ 100 := by
  have h1 : c ∈ (verifiedClaims lookup text oC).filter (fun c => !c.issues.isEmpty) :=
    (List.perm_insertionSort severityGE _).mem_iff.mp h
  have h2 : c ∈ verifiedClaims lookup text oC := (List.mem_filter.mp h1).1
  obtain ⟨c0, hc0, hconf⟩ := conf_of_mem_zip_claims h2
  have hb : 0 ≤ c0.confidence ∧ c0.confidence ≤ 1 := conf_bounds_extract hc0
  show 0 ≤ pct c.confidence ∧ pct c.confidence ≤ 100
  rw [hconf]
  exact pct_bounds hb.1 hb.2

/-- Witness for C9 at the concrete flagged claim of a concrete report. -/
theorem claim9_witness :
    0 ≤ (serializeClaim sampleFlagged).confidence ∧
    (serializeClaim sampleFlagged).confidence ≤ 100 :=
  claim9_confidence_percentage lookupU "Al said 3." [] [] sampleFlagged
    (by with_unfolding_all decide)

end AINewsroom
